import Mathlib

/-!
Verification development for the SEC EDGAR MCP server's paginated filing
delivery pipeline (src/modules/utils.py, src/google_oauth2_server.py,
src/server.py).

The Python source is shallowly embedded: network responses become explicit
environment values, fallible steps become `Except`/`Option`, an unhandled
Python exception becomes an explicit `PyErr` value, and the text-splitting
library is modelled as a recursive character splitter.  Characters and
strings are plain Lean `Char`/`String` (SEC payloads are textual).
-/

namespace SecEdgar

/-- Whitespace as used by Python's `str.strip()` (common ASCII subset). -/
def isWsChar (c : Char) : Bool := c = ' ' || c = '\n' || c = '\t' || c = '\r'

/-- The non-whitespace character content of a character list. -/
def nonWs (l : List Char) : List Char := l.filter (fun c => !isWsChar c)

/-- The non-whitespace character content of a string. -/
def contentOf (s : String) : List Char := nonWs s.data

/-- Model of Python `str.strip()`: drop whitespace at both ends. -/
def stripWs (l : List Char) : List Char :=
  ((l.dropWhile isWsChar).reverse.dropWhile isWsChar).reverse

/-- Model of Python `str.strip()` on strings (used for `user_agent.strip()`). -/
def pyStrip (s : String) : String := String.mk (stripWs s.data)

/-- Model of Python `"c" in s` membership test for a single character. -/
def containsChar (s : String) (c : Char) : Bool := s.data.contains c

/-- Model of Python `s.upper()` (ASCII case fold, as in the ticker match). -/
def upperStr (s : String) : String := String.mk (s.data.map Char.toUpper)

/-- Model of `accession.replace("-", "")` in `create_base_df_for_sec_company_data`. -/
def stripDashes (s : String) : String := String.mk (s.data.filter (fun c => c ≠ '-'))

/-- Zero-pad a CIK to ten digits: Python `f"{int(row['cik_str']):010d}"`. -/
def padCik (n : Nat) : String :=
  let s := toString n
  String.mk (List.replicate (10 - s.length) '0') ++ s

/-- Unhandled Python exception kinds that can escape or be caught in the pipeline. -/
inductive PyErr
  | keyError          -- e.g. `{}['recent']`
  | typeError         -- e.g. `int(tuple)` or unpacking None into three names
  | indexError        -- list/iloc index out of range
  | valueError        -- `int("x")` on a non-numeric string
  | httpStatusError   -- `raise_for_status()` on a non-2xx response
  | requestError      -- httpx network error / timeout
  | conversionError   -- docling conversion failure
  | specNotFound      -- spec-modelled component failure: NotFound
  | specUpstream      -- spec-modelled component failure: UpstreamUnavailable
  deriving DecidableEq, Repr

/-- One row of the SEC ticker catalog (`company_tickers.json`). -/
structure CatalogRow where
  cik_str : Nat
  ticker : String
  title : String
  deriving DecidableEq, Repr

/-- Response of the ticker-catalog endpoint as observed by `company_cik_by_ticker`. -/
inductive CatalogResp
  | err (status : Nat)          -- non-2xx: `raise_for_status()` raises
  | ok (rows : List CatalogRow) -- parsed catalog
  deriving DecidableEq, Repr

/-- The value `company_cik_by_ticker` hands back: either the `(cik, ticker, title)`
tuple or the `{"error": "Ticker not found", ...}` dict.  `cikStr` is the plain
CIK string used by the spec-modelled `Utils` resolver of `server.py`. -/
inductive CikVal
  | cikStr (s : String)
  | tup (cik ticker title : String)
  | errDict (error : String) (ticker : String) (status : Nat)
  deriving DecidableEq, Repr

/-- `company_cik_by_ticker` (src/modules/utils.py:10-59): downloads the catalog,
uppercases the stripped ticker, takes the first matching row.  A non-2xx catalog
response makes `raise_for_status()` raise (no handler in the function), a missing
ticker yields the 404 error dict, otherwise the `(cik, ticker, title)` tuple. -/
def company_cik_by_ticker (catalog : CatalogResp) (company_ticker : String)
    (_user_agent : String) : Except PyErr CikVal :=
  match catalog with
  | .err _ => .error .httpStatusError
  | .ok rows =>
    let tkr := upperStr (pyStrip company_ticker)
    match rows.find? (fun r => upperStr r.ticker = tkr) with
    | none => .ok (.errDict "Ticker not found" company_ticker 404)
    | some row => .ok (.tup (padCik row.cik_str) row.ticker row.title)

/-- The `filings.recent` parallel arrays of the submissions record. -/
structure RecentArrays where
  form : List String
  accessionNumber : List String
  reportDate : List String
  primaryDocument : List String
  deriving DecidableEq, Repr

/-- The `filings` sub-dictionary: `recent = none` models a dict without a
`'recent'` key (in particular the literal `{}` of the error path). -/
structure FilingsDict where
  recent : Option RecentArrays
  deriving DecidableEq, Repr

/-- Parsed submissions JSON: scalar top-level fields plus the optional
`filings` key.  The object is falsy exactly when it has no keys. -/
structure SubsJson where
  meta : List (String × String)
  filings : Option FilingsDict
  deriving DecidableEq, Repr

/-- Python truthiness of the parsed submissions dict (`if filing_dict:`). -/
def subsFalsy (j : SubsJson) : Bool := j.meta.isEmpty && j.filings.isNone

/-- Response of the submissions endpoint as observed by
`fetch_selected_company_details_and_filing_accessions`. -/
inductive SubsResp
  | httpErr            -- non-2xx (raise_for_status raises, caught by the except)
  | reqErr             -- network error / timeout (caught)
  | parseErr           -- 2xx but response.json() raises (caught)
  | okBody (body : SubsJson)
  deriving DecidableEq, Repr

def important_keys : List String :=
  ["name", "tickers", "exchanges", "sicDescription", "description", "website",
   "fiscalYearEnd"]

def secondary_keys : List String :=
  ["stateOfIncorporation", "stateOfIncorporationDescription",
   "insiderTransactionForOwnerExists", "insiderTransactionForIssuerExists",
   "category", "addresses"]

/-- `v if v else "N/A"` for (string-modelled) metadata values. -/
def naSub (v : String) : String := if v = "" then "N/A" else v

/-- `fetch_selected_company_details_and_filing_accessions`
(src/modules/utils.py:62-138).  On any caught failure it returns the literal
`({}, {}, {})`; on a 2xx response whose JSON body is falsy the `if filing_dict:`
guard skips the return, so the function falls through and returns Python `None`
(modelled as `none`); otherwise the two metadata splits and
`filing_dict.get('filings', {})`. -/
def fetch_selected_company_details_and_filing_accessions (resp : SubsResp) :
    Option ((List (String × String)) × (List (String × String)) × FilingsDict) :=
  match resp with
  | .httpErr => some ([], [], ⟨none⟩)
  | .reqErr => some ([], [], ⟨none⟩)
  | .parseErr => some ([], [], ⟨none⟩)
  | .okBody j =>
    if subsFalsy j then none
    else some
      (j.meta.filterMap
        (fun kv => if important_keys.contains kv.1 then some (kv.1, naSub kv.2) else none),
       j.meta.filterMap
        (fun kv => if secondary_keys.contains kv.1 then some (kv.1, naSub kv.2) else none),
       j.filings.getD ⟨none⟩)

/-- The fixed ordered set of tracked form types in `get_latest_filings_index`. -/
def important_forms : List String :=
  ["10-K", "10-Q", "8-K", "S-1", "S-3", "DEF 14A", "20-F", "6-K", "4", "13D", "13G"]

/-- Index of the first occurrence of `f` in `l` (the inner
`for index, row in enumerate(...): if str(row) == form: ...; break` loop). -/
def firstOccIdx (l : List String) (f : String) : Option Nat :=
  match l with
  | [] => none
  | a :: rest => if a = f then some 0 else (firstOccIdx rest f).map (· + 1)

/-- The mapping built by `get_latest_filings_index` over a present
`filings['recent']` block: every tracked form that occurs, in
`important_forms` order, mapped to its first index. -/
def latestMapping (r : RecentArrays) : List (String × Nat) :=
  important_forms.filterMap (fun f => (firstOccIdx r.form f).map (fun i => (f, i)))

/-- `get_latest_filings_index` (src/modules/utils.py:141-149).  It indexes
`filings['recent']` unconditionally, so a filings dict without a `'recent'`
key (in particular the empty `{}` of the error path) raises `KeyError`. -/
def get_latest_filings_index (filings : FilingsDict) :
    Except PyErr (List (String × Nat)) :=
  match filings.recent with
  | none => .error .keyError
  | some r => .ok (latestMapping r)

/-- One row of the base DataFrame built by `create_base_df_for_sec_company_data`. -/
structure FilingRow where
  accession_number : String
  report_date : String
  form : String
  docs : String
  cik : CikVal
  deriving DecidableEq, Repr

/-- `create_base_df_for_sec_company_data` (src/modules/utils.py:152-175): one
row per mapping entry, reading the parallel arrays at the mapped index (the
mapping key itself is ignored, matching `for _, index in ...items()`).  With an
empty mapping the loop body (and hence the `filings['recent']` access) never
runs.  An out-of-range index raises `IndexError`. -/
def create_base_df_for_sec_company_data (mapping : List (String × Nat))
    (filings : FilingsDict) (cik : CikVal) : Except PyErr (List FilingRow) :=
  match mapping with
  | [] => .ok []
  | _ =>
    match filings.recent with
    | none => .error .keyError
    | some r =>
      mapping.mapM (fun fi =>
        match r.accessionNumber.get? fi.2, r.reportDate.get? fi.2,
              r.form.get? fi.2, r.primaryDocument.get? fi.2 with
        | some a, some rd, some fo, some pd =>
          .ok ⟨stripDashes a, rd, fo, pd, cik⟩
        | _, _, _, _ => .error .indexError)

/-- Response of the archive endpoint as observed by
`_fetch_selected_company_filings`. -/
inductive DocResp
  | httpErr | reqErr | otherErr
  | ok (content : String)
  deriving DecidableEq, Repr

/-- `_fetch_selected_company_filings` (src/modules/utils.py:178-195): the raw
bytes on success; on `HTTPStatusError`, `RequestError` or any other exception
the handler only logs and the function returns the empty bytes `b""`. -/
def fetch_selected_company_filings (resp : DocResp) : String :=
  match resp with
  | .ok c => c
  | .httpErr => ""
  | .reqErr => ""
  | .otherErr => ""

/-- Split a character list at every occurrence of the separator character,
keeping the separator attached to the start of the following piece, so the
pieces concatenate back to the input (langchain's `_split_text_with_regex`
with `keep_separator=True`). -/
def splitKeep (sep : Char) : List Char → List (List Char)
  | [] => [[]]
  | c :: rest =>
    match splitKeep sep rest with
    | [] => [[c]]
    | p :: ps => if c = sep then [] :: (c :: p) :: ps else (c :: p) :: ps

/-- `_join_docs`: join accumulated splits with the empty separator, strip
whitespace, and drop the chunk when nothing remains. -/
def joinDocs (ds : List (List Char)) : Option (List Char) :=
  if stripWs ds.flatten = [] then none else some (stripWs ds.flatten)

/-- The greedy merge loop of `_merge_splits` with `chunk_overlap=0`: accumulate
pieces while the running length stays within `cs`; flushing strips whitespace
and drops empty chunks. -/
def mergeGo (cs : Nat) : List (List Char) → List (List Char) → List (List Char)
  | [], cur =>
    match joinDocs cur with
    | none => []
    | some d => [d]
  | d :: ds, cur =>
    if cur ≠ [] ∧ cur.flatten.length + d.length > cs then
      (match joinDocs cur with
       | none => []
       | some x => [x]) ++ mergeGo cs ds [d]
    else mergeGo cs ds (cur ++ [d])

/-- `_merge_splits(splits, "")` of the text splitter. -/
def mergeSplits (cs : Nat) (splits : List (List Char)) : List (List Char) :=
  mergeGo cs splits []

/-- The `for s in splits` loop of langchain's
`RecursiveCharacterTextSplitter._split_text`, over an abstract re-splitter
`sub` for the remaining separators: small pieces accumulate in `good`; an
oversized piece flushes the accumulated merge and is re-split by `sub`. -/
def goodLoopP (sub : List Char → List (List Char)) (cs : Nat) :
    List (List Char) → List (List Char) → List (List Char)
  | [], good => mergeSplits cs good
  | s :: ss, good =>
    if s.length < cs then goodLoopP sub cs ss (good ++ [s])
    else mergeSplits cs good ++ sub s ++ goodLoopP sub cs ss []

/-- Modelled from the spec: the `MarkdownTextSplitter` used by
`chunk_docs_content` is an external langchain dependency whose source is not in
this repository; §4.6 describes it as a fixed-strategy recursive splitter with
a size threshold and zero overlap.  This is langchain's
`RecursiveCharacterTextSplitter._split_text`: pick the first separator
occurring in the text, split keeping separators, merge small pieces greedily
and recursively re-split oversized pieces with the remaining separators; the
empty seps list is the final `""` separator, which splits into characters. -/
def splitTextRec (cs : Nat) : List Char → List Char → List (List Char)
  | [], t => mergeSplits cs (t.map fun c => [c])
  | s :: rest, t =>
    if t.contains s then
      goodLoopP (splitTextRec cs rest) cs
        ((splitKeep s t).filter (fun p => !p.isEmpty)) []
    else splitTextRec cs rest t

/-- The separator hierarchy of the markdown splitter, modelled at character
granularity (line breaks, then spaces, then single characters). -/
def mdSeps : List Char := ['\n', ' ']

/-- `chunk_docs_content` (src/modules/utils.py:220-227):
`MarkdownTextSplitter(chunk_size=2, chunk_overlap=0).split_text(content)`. -/
def chunk_docs_content (content : String) : List String :=
  (splitTextRec 2 mdSeps content.data).map String.mk

/-- Decimal parse of a digit string (Python `int` on the CIK strings used
here; signs and surrounding whitespace are not needed for this model). -/
def pyIntStr (s : String) : Option Nat :=
  if s.data ≠ [] ∧ s.data.all Char.isDigit then
    some (s.data.foldl (fun acc c => 10 * acc + (c.toNat - 48)) 0)
  else none

/-- Python `int(...)` applied to the DataFrame's `cik` cell
(`str(int(row['cik']))` in `fetch_all_filings`): a numeric string converts,
a tuple or dict raises `TypeError`, a non-numeric string raises `ValueError`. -/
def pyIntOfCikVal : CikVal → Except PyErr Nat
  | .cikStr s => match pyIntStr s with
    | some n => .ok n
    | none => .error .valueError
  | .tup _ _ _ => .error .typeError
  | .errDict _ _ _ => .error .typeError

/-- Network operations issued against SEC endpoints (for the request traces). -/
inductive NetOp
  | catalogGet
  | subsGet
  | docGet (accession filename : String)
  deriving DecidableEq, Repr

/-- `fetch_all_filings` (src/modules/utils.py:198-206): for each row, evaluate
`str(int(row['cik']))` (which raises before the row's download when the cell is
not int-convertible) and then download the row's document; the list of contents
plus the archive requests actually issued. -/
def fetch_all_filings (doc : String → String → DocResp) :
    List FilingRow → Except PyErr (List String) × List NetOp
  | [] => (.ok [], [])
  | row :: rest =>
    match pyIntOfCikVal row.cik with
    | .error e => (.error e, [])
    | .ok _ =>
      let content := fetch_selected_company_filings (doc row.accession_number row.docs)
      let (res, ops) := fetch_all_filings doc rest
      (res.map (content :: ·), .docGet row.accession_number row.docs :: ops)

/-- Python list indexing `l[i]`: negative indices count from the end, anything
out of range raises `IndexError`. -/
def pyListGet (l : List α) (i : Int) : Except PyErr α :=
  let j := if i < 0 then i + l.length else i
  if h : 0 ≤ j ∧ j < l.length then
    .ok (l.get ⟨j.toNat, by omega⟩)
  else .error .indexError

/-- The UA-guard message of google_oauth2_server.py:292. -/
def uaErrMsg : String :=
  "SEC EDGAR requires a User-Agent with a contact email (e.g., \x27YourApp/1.0 (you@example.com)\x27)"

/-- The form-not-found message of google_oauth2_server.py:302. -/
def noFilingMsg (form ticker : String) : String :=
  "No filing found for form \x27" ++ form ++ "\x27 for ticker \x27" ++ ticker ++ "\x27."

/-- The cursor-range message of google_oauth2_server.py:318. -/
def cursorMsg (maxCursor : Int) : String :=
  "cursor out of range. Valid range: 0.." ++ toString maxCursor

/-- The success dictionary assembled by both `company_filings` tools. -/
structure SecContext where
  company_cik : CikVal
  filing_accession : String
  filing_report_date : String
  filing_form : String
  company_context_1 : List (String × String)
  company_context_2 : List (String × String)
  filing_filename : String
  max_cursor : Int
  cursor : Int
  chunk : String
  deriving DecidableEq, Repr

/-- What a `company_filings` tool call produces: the success dict, an
`({"error": ...}, status)` tuple, or an unhandled Python exception escaping
the call. -/
inductive ToolResult
  | ok (ctx : SecContext)
  | errTuple (msg : String) (status : Nat)
  | pyCrash (e : PyErr)
  deriving DecidableEq, Repr

/-- Whether a result is a 400-class structured validation error. -/
def is400Err : ToolResult → Bool
  | .errTuple _ 400 => true
  | _ => false

def mkSecContext (cik : CikVal) (c1 c2 : List (String × String)) (row : FilingRow)
    (maxCursor cursor : Int) (chunk : String) : SecContext :=
  ⟨cik, row.accession_number, row.report_date, row.form, c1, c2, row.docs,
   maxCursor, cursor, chunk⟩

/-- The final stage of google_oauth2_server.py's `company_filings`
(lines 315-321): set `max_cursor = len(chunks) - 1`, reject a cursor outside
`[0, max_cursor]` with a `({...}, 400)` tuple, otherwise return the dict with
`chunks[cursor]`. -/
def googleCursorStage (cik : CikVal) (c1 c2 : List (String × String))
    (row : FilingRow) (chunks : List String) (cursor : Int) : ToolResult :=
  if cursor < 0 || cursor > (chunks.length : Int) - 1 then
    .errTuple (cursorMsg ((chunks.length : Int) - 1)) 400
  else
    match pyListGet chunks cursor with
    | .ok ch => .ok (mkSecContext cik c1 c2 row ((chunks.length : Int) - 1) cursor ch)
    | .error e => .pyCrash e

/-- The final stage of server.py's `company_filings` (lines 93-96): no cursor
validation at all — `chunks[cursor]` with Python list semantics, so a negative
cursor reads from the end of the list and a too-large one raises `IndexError`. -/
def serverCursorStage (cik : CikVal) (c1 c2 : List (String × String))
    (row : FilingRow) (chunks : List String) (cursor : Int) : ToolResult :=
  match pyListGet chunks cursor with
  | .ok ch => .ok (mkSecContext cik c1 c2 row ((chunks.length : Int) - 1) cursor ch)
  | .error e => .pyCrash e

/-- The environment a `company_filings` call runs against: what each SEC
endpoint returns, plus the docling conversion oracle.  The submissions
response is keyed by the value interpolated into the URL (a plain CIK string,
or — after the orchestrator's `cik = await utils.company_cik_by_ticker(...)`
binding — the whole tuple or error dict). -/
structure Env where
  catalog : CatalogResp
  subs : CikVal → SubsResp
  doc : String → String → DocResp
  convert : String → Except PyErr String

/-- `company_filings` of src/google_oauth2_server.py (lines 284-321), with the
trace of SEC requests it issues.  Faithful to the source: the whole return
value of `company_cik_by_ticker` is bound to `cik` and passed onward; a `None`
from the submissions fetcher fails the three-way unpacking with `TypeError`;
`get_latest_filings_index` on the empty dict raises `KeyError`. -/
def googleCompanyFilings (env : Env) (company_ticker form : String)
    (cursor : Int) (user_agent : String) : ToolResult × List NetOp :=
  if !containsChar (pyStrip user_agent) '@' then (.errTuple uaErrMsg 400, [])
  else
    match company_cik_by_ticker env.catalog company_ticker (pyStrip user_agent) with
    | .error e => (.pyCrash e, [.catalogGet])
    | .ok cik =>
      match fetch_selected_company_details_and_filing_accessions (env.subs cik) with
      | none => (.pyCrash .typeError, [.catalogGet, .subsGet])
      | some (c1, c2, c3) =>
        match get_latest_filings_index c3 with
        | .error e => (.pyCrash e, [.catalogGet, .subsGet])
        | .ok mapping =>
          match create_base_df_for_sec_company_data mapping c3 cik with
          | .error e => (.pyCrash e, [.catalogGet, .subsGet])
          | .ok rows =>
            let fr := fetch_all_filings env.doc rows
            match fr.1 with
            | .error e => (.pyCrash e, [.catalogGet, .subsGet] ++ fr.2)
            | .ok raws =>
              match (rows.zip raws).filter (fun rr => rr.1.form = form) with
              | [] => (.errTuple (noFilingMsg form company_ticker) 404,
                       [.catalogGet, .subsGet] ++ fr.2)
              | (filing, raw) :: _ =>
                match env.convert raw with
                | .error e => (.pyCrash e, [.catalogGet, .subsGet] ++ fr.2)
                | .ok md =>
                  (googleCursorStage cik c1 c2 filing (chunk_docs_content md) cursor,
                   [.catalogGet, .subsGet] ++ fr.2)

/-- Modelled from the spec: server.py imports a class `Utils` from
`modules.utils` that is absent from src/ (the module there only has free
functions).  Its resolver is modelled from §4.1 TickerResolver: download the
catalog, case-insensitive exact match, hand back the company identifier
(zero-padded CIK); failures are NotFound / UpstreamUnavailable. -/
def utilsClsResolveTicker (catalog : CatalogResp) (company_ticker : String) :
    Except PyErr String :=
  match catalog with
  | .err _ => .error .specUpstream
  | .ok rows =>
    let tkr := upperStr (pyStrip company_ticker)
    match rows.find? (fun r => upperStr r.ticker = tkr) with
    | none => .error .specNotFound
    | some row => .ok (padCik row.cik_str)

/-- `company_filings` of src/server.py (lines 50-96), with its request trace.
The control flow is the file's own: no user-agent guard before the resolver
call (line 75), no emptiness check before `selected_form.iloc[0]` (line 82,
`IndexError` on an empty selection), and no cursor validation (lines 93-94).
The `Utils` methods it calls are the spec-modelled resolver above and the
module-level functions (the class itself is absent from src/). -/
def serverCompanyFilings (env : Env) (company_ticker form : String)
    (cursor : Int) (_user_agent : String) : ToolResult × List NetOp :=
  match utilsClsResolveTicker env.catalog company_ticker with
  | .error e => (.pyCrash e, [.catalogGet])
  | .ok cik =>
    match fetch_selected_company_details_and_filing_accessions (env.subs (.cikStr cik)) with
    | none => (.pyCrash .typeError, [.catalogGet, .subsGet])
    | some (c1, c2, c3) =>
      match get_latest_filings_index c3 with
      | .error e => (.pyCrash e, [.catalogGet, .subsGet])
      | .ok mapping =>
        match create_base_df_for_sec_company_data mapping c3 (.cikStr cik) with
        | .error e => (.pyCrash e, [.catalogGet, .subsGet])
        | .ok rows =>
          let fr := fetch_all_filings env.doc rows
          match fr.1 with
          | .error e => (.pyCrash e, [.catalogGet, .subsGet] ++ fr.2)
          | .ok raws =>
            match (rows.zip raws).filter (fun rr => rr.1.form = form) with
            | [] => (.pyCrash .indexError, [.catalogGet, .subsGet] ++ fr.2)
            | (filing, raw) :: _ =>
              match env.convert raw with
              | .error e => (.pyCrash e, [.catalogGet, .subsGet] ++ fr.2)
              | .ok md =>
                (serverCursorStage (.cikStr cik) c1 c2 filing
                  (chunk_docs_content md) cursor,
                 [.catalogGet, .subsGet] ++ fr.2)

/-- Two sequential identical cursor requests.  No declaration in src/ holds
any cross-request state (there is no cache anywhere in the repository), so the
second request is another plain call and the combined trace is the
concatenation of the two calls' traces. -/
def runTwiceServer (env : Env) (company_ticker form : String) (cursor : Int)
    (user_agent : String) : (ToolResult × ToolResult) × List NetOp :=
  let r1 := serverCompanyFilings env company_ticker form cursor user_agent
  let r2 := serverCompanyFilings env company_ticker form cursor user_agent
  ((r1.1, r2.1), r1.2 ++ r2.2)

/-- Number of archive-document downloads in a request trace. -/
def docGetCount (ops : List NetOp) : Nat :=
  (ops.filter (fun o => match o with | .docGet _ _ => true | _ => false)).length

/-- A valid contact-bearing user agent for the scenarios. -/
def okUA : String := "Jane Doe jane@example.com"

/-- A one-row MSFT ticker catalog. -/
def msftCatalog : CatalogResp := .ok [⟨789019, "MSFT", "MICROSOFT CORP"⟩]

/-- A filing history whose only tracked form is a single 10-K. -/
def recent10K : RecentArrays :=
  { form := ["10-K"]
    accessionNumber := ["0000950170-24-000001"]
    reportDate := ["2024-06-30"]
    primaryDocument := ["msft-10k.htm"] }

/-- A filing history holding an 8-K (most recent) and a 10-K. -/
def recentTwoForms : RecentArrays :=
  { form := ["8-K", "10-K"]
    accessionNumber := ["0000950170-24-000002", "0000950170-24-000001"]
    reportDate := ["2024-07-15", "2024-06-30"]
    primaryDocument := ["msft-8k.htm", "msft-10k.htm"] }

/-- A filing history containing no tracked form type at all. -/
def recentNoTracked : RecentArrays :=
  { form := ["25-NSE"]
    accessionNumber := ["0000950170-24-000003"]
    reportDate := ["2024-05-01"]
    primaryDocument := ["msft-25nse.htm"] }

/-- Submissions body around a given history. -/
def subsBodyWith (r : RecentArrays) : SubsJson :=
  { meta := [("name", "Microsoft Corporation")], filings := some ⟨some r⟩ }

/-- Happy-path environment: one 10-K on file, conversion yields "a b c". -/
def envHappy1 : Env :=
  { catalog := msftCatalog
    subs := fun _ => .okBody (subsBodyWith recent10K)
    doc := fun _ _ => .ok "rawdoc"
    convert := fun _ => .ok "a b c" }

/-- Happy-path environment with two tracked forms on file. -/
def envHappy2 : Env :=
  { catalog := msftCatalog
    subs := fun _ => .okBody (subsBodyWith recentTwoForms)
    doc := fun _ _ => .ok "rawdoc"
    convert := fun _ => .ok "a b c" }

/-- Environment whose submissions endpoint fails (non-2xx). -/
def envSubsErr : Env :=
  { catalog := msftCatalog
    subs := fun _ => .httpErr
    doc := fun _ _ => .ok "rawdoc"
    convert := fun _ => .ok "a b c" }

/-- Environment whose submissions endpoint returns 2xx with an empty JSON body. -/
def envEmptyBody : Env :=
  { catalog := msftCatalog
    subs := fun _ => .okBody ⟨[], none⟩
    doc := fun _ _ => .ok "rawdoc"
    convert := fun _ => .ok "a b c" }

/-- Environment whose filing history contains no tracked form. -/
def envNoTracked : Env :=
  { catalog := msftCatalog
    subs := fun _ => .okBody (subsBodyWith recentNoTracked)
    doc := fun _ _ => .ok "rawdoc"
    convert := fun _ => .ok "a b c" }

/-- A sample filing row for concrete stage-level instances. -/
def exRow : FilingRow :=
  ⟨"000095017024000001", "2024-06-30", "10-K", "msft-10k.htm", .cikStr "0000789019"⟩

/-!  ## Lemmas: whitespace-insensitive content through the splitter  -/

theorem nonWs_append (a b : List Char) : nonWs (a ++ b) = nonWs a ++ nonWs b := by
  simp [nonWs, List.filter_append]

theorem nonWs_reverse (l : List Char) : nonWs l.reverse = (nonWs l).reverse := by
  simp [nonWs, List.filter_reverse]

theorem nonWs_dropWhile (l : List Char) :
    nonWs (l.dropWhile isWsChar) = nonWs l := by
  induction l with
  | nil => rfl
  | cons a l ih =>
    simp only [List.dropWhile_cons]
    by_cases h : isWsChar a
    · simp only [h, if_true]
      rw [ih]
      simp [nonWs, List.filter_cons, h]
    · simp [h]

theorem nonWs_stripWs (l : List Char) : nonWs (stripWs l) = nonWs l := by
  unfold stripWs
  rw [nonWs_reverse, nonWs_dropWhile, nonWs_reverse, nonWs_dropWhile,
    List.reverse_reverse]

theorem nonWs_eq_nil_of_stripWs (l : List Char) (h : stripWs l = []) :
    nonWs l = [] := by
  have h2 := nonWs_stripWs l
  rw [h] at h2
  simpa [nonWs] using h2.symm

theorem nonWs_nil : nonWs ([] : List Char) = [] := rfl

theorem mergeGo_content (cs : Nat) (ss : List (List Char)) :
    ∀ cur, nonWs (mergeGo cs ss cur).flatten =
      nonWs cur.flatten ++ nonWs ss.flatten := by
  induction ss with
  | nil =>
    intro cur
    simp only [mergeGo, joinDocs, List.flatten_nil, nonWs_nil, List.append_nil]
    by_cases h : stripWs cur.flatten = []
    · rw [if_pos h]
      simp only [List.flatten_nil, nonWs_nil]
      exact (nonWs_eq_nil_of_stripWs cur.flatten h).symm
    · rw [if_neg h]
      simp only [List.flatten_cons, List.flatten_nil, List.append_nil]
      exact nonWs_stripWs cur.flatten
  | cons d ds ih =>
    intro cur
    simp only [mergeGo, joinDocs]
    by_cases hc : cur ≠ [] ∧ cur.flatten.length + d.length > cs
    · rw [if_pos hc]
      by_cases h : stripWs cur.flatten = []
      · rw [if_pos h]
        simp only [List.nil_append, ih [d]]
        rw [nonWs_eq_nil_of_stripWs cur.flatten h]
        simp [nonWs_append, nonWs_nil, List.flatten_cons, List.append_assoc]
      · rw [if_neg h]
        simp only [List.singleton_append, List.flatten_cons, nonWs_append, ih [d]]
        rw [nonWs_stripWs]
        simp [nonWs_append, nonWs_nil, List.flatten_cons, List.append_assoc]
    · rw [if_neg hc]
      rw [ih (cur ++ [d])]
      simp [List.flatten_append, List.flatten_cons, nonWs_append, nonWs_nil,
        List.append_assoc]

theorem mergeSplits_content (cs : Nat) (ss : List (List Char)) :
    nonWs (mergeSplits cs ss).flatten = nonWs ss.flatten := by
  unfold mergeSplits
  rw [mergeGo_content]
  simp [nonWs_nil]

theorem splitKeep_ne_nil (sep : Char) (t : List Char) : splitKeep sep t ≠ [] := by
  induction t with
  | nil => simp [splitKeep]
  | cons c rest _ =>
    simp only [splitKeep]
    cases h : splitKeep sep rest with
    | nil => simp
    | cons p ps => by_cases hc : c = sep <;> simp [hc]

theorem flatten_splitKeep (sep : Char) (t : List Char) :
    (splitKeep sep t).flatten = t := by
  induction t with
  | nil => simp [splitKeep]
  | cons c rest ih =>
    simp only [splitKeep]
    cases h : splitKeep sep rest with
    | nil => exact absurd h (splitKeep_ne_nil sep rest)
    | cons p ps =>
      rw [h] at ih
      by_cases hc : c = sep <;> simp_all [List.flatten_cons]

theorem flatten_filter_nonempty (l : List (List Char)) :
    (l.filter (fun p => !p.isEmpty)).flatten = l.flatten := by
  induction l with
  | nil => rfl
  | cons a l ih =>
    rw [List.filter_cons]
    by_cases h : (!a.isEmpty) = true
    · rw [if_pos h]
      simp [List.flatten_cons, ih]
    · rw [if_neg h]
      have ha : a = [] := by
        cases a with
        | nil => rfl
        | cons x xs => simp [List.isEmpty] at h
      subst ha
      simp [ih]

theorem goodLoopP_content (sub : List Char → List (List Char)) (cs : Nat)
    (hsub : ∀ u, nonWs (sub u).flatten = nonWs u)
    (splits : List (List Char)) :
    ∀ good, nonWs (goodLoopP sub cs splits good).flatten =
      nonWs good.flatten ++ nonWs splits.flatten := by
  induction splits with
  | nil =>
    intro good
    rw [goodLoopP, mergeSplits_content]
    simp [nonWs_nil]
  | cons s ss ih =>
    intro good
    rw [goodLoopP]
    by_cases h : s.length < cs
    · rw [if_pos h, ih (good ++ [s])]
      simp [List.flatten_append, List.flatten_cons, nonWs_append, nonWs_nil,
        List.append_assoc]
    · rw [if_neg h]
      simp only [List.flatten_append, nonWs_append, mergeSplits_content,
        hsub s, ih [], List.flatten_cons]
      simp [nonWs_append, nonWs_nil, List.flatten_nil, List.append_assoc]

theorem flatten_map_singleton (t : List Char) :
    (t.map fun c => [c]).flatten = t := by
  induction t with
  | nil => rfl
  | cons c rest ih => simp [ih]

theorem splitTextRec_content (cs : Nat) (seps : List Char) :
    ∀ t, nonWs (splitTextRec cs seps t).flatten = nonWs t := by
  induction seps with
  | nil =>
    intro t
    rw [splitTextRec, mergeSplits_content, flatten_map_singleton]
  | cons s rest ih =>
    intro t
    rw [splitTextRec]
    by_cases h : t.contains s
    · rw [if_pos h, goodLoopP_content (splitTextRec cs rest) cs ih]
      rw [flatten_filter_nonempty, flatten_splitKeep]
      simp [nonWs_nil]
    · rw [if_neg h]
      exact ih t

theorem string_data_append (s t : String) : (s ++ t).data = s.data ++ t.data := rfl

theorem foldl_append_data (l : List String) :
    ∀ acc : String,
      (l.foldl (fun r s => r ++ s) acc).data =
        acc.data ++ (l.map String.data).flatten := by
  induction l with
  | nil => intro acc; simp
  | cons a l ih =>
    intro acc
    rw [List.foldl_cons, ih, string_data_append]
    simp [List.append_assoc]

theorem strJoin_data (l : List String) :
    (String.join l).data = (l.map String.data).flatten := by
  rw [String.join, foldl_append_data]
  rfl

theorem map_data_map_mk (ls : List (List Char)) :
    (ls.map String.mk).map String.data = ls := by
  induction ls with
  | nil => rfl
  | cons a l ih => simp [ih]

/-!  ## Lemmas: list access and the latest-form mapping  -/

theorem getD_eq_get (l : List String) (n : Nat) (d : String) (h : n < l.length) :
    l.getD n d = l.get ⟨n, h⟩ := by
  induction l generalizing n with
  | nil => simp at h
  | cons a l ih =>
    cases n with
    | zero => rfl
    | succ m => exact ih m (Nat.lt_of_succ_lt_succ h)

theorem pyListGet_inRange (l : List String) (i : Int) (h0 : 0 ≤ i)
    (h1 : i < (l.length : Int)) :
    pyListGet l i = .ok (l.getD i.toNat "") := by
  unfold pyListGet
  have hneg : ¬ i < 0 := by omega
  simp only [if_neg hneg]
  have hc : 0 ≤ i ∧ i < (l.length : Int) := ⟨h0, h1⟩
  rw [dif_pos hc]
  have hlt : i.toNat < l.length := by omega
  rw [getD_eq_get l i.toNat "" hlt]

theorem firstOccIdx_spec (l : List String) (f : String) :
    ∀ i, firstOccIdx l f = some i →
      l.get? i = some f ∧ ∀ j, j < i → l.get? j ≠ some f := by
  induction l with
  | nil => intro i h; simp [firstOccIdx] at h
  | cons a rest ih =>
    intro i h
    by_cases ha : a = f
    · rw [firstOccIdx, if_pos ha] at h
      obtain rfl : (0 : Nat) = i := by simpa using h
      subst ha
      exact ⟨rfl, fun j hj => absurd hj (Nat.not_lt_zero j)⟩
    · rw [firstOccIdx, if_neg ha] at h
      rw [Option.map_eq_some'] at h
      obtain ⟨n, hn, rfl⟩ := h
      obtain ⟨h1, h2⟩ := ih n hn
      refine ⟨by simpa using h1, ?_⟩
      intro j hj
      cases j with
      | zero => simp [ha]
      | succ m =>
        intro hc
        exact h2 m (Nat.lt_of_succ_lt_succ hj) (by simpa using hc)

/-!  ## Claim C7  -/

/-- C7 (confirmed): concatenating the chunks produced by `chunk_docs_content`
in order (indices `0` through `max_cursor`, i.e. all of them) reproduces
content equivalent to the input text up to whitespace at split boundaries —
stated as equality of the whitespace-insensitive character content, which
also rules out gaps (no character lost) and overlaps (none duplicated). -/
theorem chunk_concat_reproduces_content (t : String) :
    contentOf (String.join (chunk_docs_content t)) = contentOf t := by
  unfold contentOf chunk_docs_content
  rw [strJoin_data, map_data_map_mk]
  exact splitTextRec_content 2 mdSeps t.data

/-!  ## Claim C1  -/

/-- C1 (amended claim): the cursor-validation stage of
google_oauth2_server.py's `company_filings` (lines 315-321) accepts exactly
the cursors in `[0, max_cursor]` — each returns the dict carrying that chunk —
and rejects `cursor = max_cursor + 1` and every negative cursor with the
`({"error": ...}, 400)` tuple.  server.py's `company_filings` performs no such
validation (see the counterexample). -/
theorem google_cursor_validation (cik : CikVal) (c1 c2 : List (String × String))
    (row : FilingRow) (chunks : List String) (cursor : Int) :
    ((0 ≤ cursor ∧ cursor ≤ (chunks.length : Int) - 1) →
      googleCursorStage cik c1 c2 row chunks cursor =
        .ok (mkSecContext cik c1 c2 row ((chunks.length : Int) - 1) cursor
          (chunks.getD cursor.toNat ""))) ∧
    ((cursor < 0 ∨ cursor = (chunks.length : Int)) →
      googleCursorStage cik c1 c2 row chunks cursor =
        .errTuple (cursorMsg ((chunks.length : Int) - 1)) 400) := by
  constructor
  · rintro ⟨h0, h1⟩
    unfold googleCursorStage
    have hguard :
        (decide (cursor < 0) || decide (cursor > (chunks.length : Int) - 1)) = false := by
      simp only [Bool.or_eq_false_iff, decide_eq_false_iff_not]
      omega
    rw [if_neg (by simp [hguard])]
    rw [pyListGet_inRange chunks cursor h0 (by omega)]
  · intro h
    unfold googleCursorStage
    have hguard :
        (decide (cursor < 0) || decide (cursor > (chunks.length : Int) - 1)) = true := by
      simp only [Bool.or_eq_true, decide_eq_true_eq]
      omega
    rw [if_pos (by simp [hguard])]

/-- C1 witness: on a three-chunk filing, cursor 1 succeeds with chunk "b" and
cursor -2 is rejected with the 400 tuple. -/
theorem google_cursor_validation_witness :
    googleCursorStage (.cikStr "0000789019") [] [] exRow ["a", "b", "c"] 1 =
      .ok (mkSecContext (.cikStr "0000789019") [] [] exRow 2 1 "b") ∧
    googleCursorStage (.cikStr "0000789019") [] [] exRow ["a", "b", "c"] (-2) =
      .errTuple (cursorMsg 2) 400 := by
  constructor
  · exact (google_cursor_validation (.cikStr "0000789019") [] [] exRow
      ["a", "b", "c"] 1).1 (by constructor <;> decide)
  · exact (google_cursor_validation (.cikStr "0000789019") [] [] exRow
      ["a", "b", "c"] (-2)).2 (by left; decide)

/-- C1 counterexample: under a happy-path environment whose chunking yields
`max_cursor = 2`, server.py's `company_filings` answers cursor `-1` with the
chunk taken from the end of the list (no 400-class error), and answers
cursor `max_cursor + 1 = 3` with an `IndexError` pipeline fault. -/
theorem server_cursor_no_validation :
    (serverCompanyFilings envHappy1 "MSFT" "10-K" (-1) okUA).1 =
      .ok { company_cik := .cikStr "0000789019"
            filing_accession := "000095017024000001"
            filing_report_date := "2024-06-30"
            filing_form := "10-K"
            company_context_1 := [("name", "Microsoft Corporation")]
            company_context_2 := []
            filing_filename := "msft-10k.htm"
            max_cursor := 2
            cursor := -1
            chunk := "c" } ∧
    is400Err (serverCompanyFilings envHappy1 "MSFT" "10-K" (-1) okUA).1 = false ∧
    (serverCompanyFilings envHappy1 "MSFT" "10-K" 3 okUA).1 =
      .pyCrash .indexError := by
  refine ⟨?_, ?_, ?_⟩ <;> rfl

/-!  ## Claim C2  -/

/-- C2 (amended claim): the repository has no FilingCache (no declaration in
src/ holds cross-request state), so the second of two sequential identical
cursor requests is not served from any cache: it repeats every network
operation of the first, and the two requests together perform twice the
document fetches of a single request rather than sharing one cycle. -/
theorem no_cache_second_request_repeats (env : Env) (t f : String)
    (cursor : Int) (ua : String) :
    (runTwiceServer env t f cursor ua).2 =
      (serverCompanyFilings env t f cursor ua).2 ++
        (serverCompanyFilings env t f cursor ua).2 ∧
    docGetCount (runTwiceServer env t f cursor ua).2 =
      2 * docGetCount (serverCompanyFilings env t f cursor ua).2 := by
  refine ⟨rfl, ?_⟩
  show docGetCount ((serverCompanyFilings env t f cursor ua).2 ++
      (serverCompanyFilings env t f cursor ua).2) =
    2 * docGetCount (serverCompanyFilings env t f cursor ua).2
  unfold docGetCount
  rw [List.filter_append, List.length_append]
  omega

/-- C2 counterexample: two sequential cursor requests against the same
`(cik, form, accession)` perform two document fetch/convert/chunk cycles
(one full cycle each), not exactly one as the claim states. -/
theorem two_requests_two_fetch_cycles :
    docGetCount (runTwiceServer envHappy1 "MSFT" "10-K" 0 okUA).2 = 2 ∧
    docGetCount (serverCompanyFilings envHappy1 "MSFT" "10-K" 0 okUA).2 = 1 :=
  ⟨rfl, rfl⟩

/-!  ## Claim C3  -/

/-- C3 (amended claim): google_oauth2_server.py's `company_filings` checks the
stripped user agent for an `@` before anything else: when the check fails it
returns the `({"error": ...}, 400)` tuple and its request trace is empty — no
SEC endpoint is contacted.  server.py's `company_filings` has no such guard
(see the counterexample). -/
theorem google_ua_guard (env : Env) (t f : String) (cursor : Int) (ua : String)
    (h : containsChar (pyStrip ua) '@' = false) :
    googleCompanyFilings env t f cursor ua = (.errTuple uaErrMsg 400, []) := by
  unfold googleCompanyFilings
  rw [h]
  rfl

/-- C3 witness: the user agent "MyApp/1.0" (no `@`) is rejected with the 400
tuple and an empty request trace. -/
theorem google_ua_guard_witness :
    googleCompanyFilings envHappy1 "MSFT" "10-K" 0 "MyApp/1.0" =
      (.errTuple uaErrMsg 400, []) :=
  google_ua_guard envHappy1 "MSFT" "10-K" 0 "MyApp/1.0" rfl

/-- C3 counterexample: server.py's `company_filings` called with the same
`@`-less user agent "MyApp/1.0" contacts all three SEC endpoints and does not
return a 400 validation error. -/
theorem server_no_ua_guard :
    (serverCompanyFilings envHappy1 "MSFT" "10-K" 0 "MyApp/1.0").2 =
      [.catalogGet, .subsGet, .docGet "000095017024000001" "msft-10k.htm"] ∧
    is400Err (serverCompanyFilings envHappy1 "MSFT" "10-K" 0 "MyApp/1.0").1 = false :=
  ⟨rfl, rfl⟩

/-!  ## Claim C4  -/

/-- C4 (amended claim): upstream failures are not uniformly surfaced as
structured status+message errors.  A non-2xx ticker-catalog response escapes
`company_cik_by_ticker` as an unhandled `HTTPStatusError` (the function has no
handler around `raise_for_status()`), and every archive-endpoint failure makes
`_fetch_selected_company_filings` log and hand the empty bytes `b""` onward in
place of the document. -/
theorem upstream_failures_unstructured :
    (∀ (s : Nat) (t ua : String),
      company_cik_by_ticker (.err s) t ua = .error .httpStatusError) ∧
    fetch_selected_company_filings .httpErr = "" ∧
    fetch_selected_company_filings .reqErr = "" ∧
    fetch_selected_company_filings .otherErr = "" :=
  ⟨fun _ _ _ => rfl, rfl, rfl, rfl⟩

/-- C4 counterexample: a 503 from the ticker catalog becomes an unhandled
exception, not a structured error value, and an archive HTTP error becomes the
silent substitute value `b""` handed onward to the normalizer — both outcomes
the claim rules out. -/
theorem upstream_failure_silent_empty_bytes :
    company_cik_by_ticker (.err 503) "MSFT" okUA = .error .httpStatusError ∧
    fetch_selected_company_filings .httpErr = "" :=
  ⟨rfl, rfl⟩

/-!  ## Claim C5  -/

/-- C5 (code_bug evaluation): for the absent ticker "ZZZZ",
`company_cik_by_ticker` does construct exactly the structured
`{"error": "Ticker not found", "ticker": "ZZZZ", "status": 404}` payload — but
the orchestrator binds it to `cik` without checking and pushes it into the
submissions fetch; with the SEC answering the resulting malformed URL with an
error, the empty-triple fallback then makes `get_latest_filings_index` raise
`KeyError`, so the call crashes instead of returning the 404 payload. -/
theorem ticker_not_found_error_flows_onward :
    company_cik_by_ticker msftCatalog "ZZZZ" okUA =
      .ok (.errDict "Ticker not found" "ZZZZ" 404) ∧
    googleCompanyFilings envSubsErr "ZZZZ" "10-K" 0 okUA =
      (.pyCrash .keyError, [.catalogGet, .subsGet]) :=
  ⟨rfl, rfl⟩

/-!  ## Claim C6  -/

/-- C6 (amended claim): `get_latest_filings_index` scans every tracked form
type, not only the requested one (it does not even receive the requested
form): its mapping contains exactly the pairs `(f, i)` with `f` a tracked form
and `i` the index of the first occurrence of `f` in the parallel `form` array
— the first occurrence being the most recent filing of that form under the
most-recent-first ordering.  The orchestrator then fetches documents for all
mapped forms (see the counterexample). -/
theorem latestMapping_spec (r : RecentArrays) (f : String) (i : Nat) :
    ((f, i) ∈ latestMapping r ↔
      f ∈ important_forms ∧ firstOccIdx r.form f = some i) ∧
    (firstOccIdx r.form f = some i →
      r.form.get? i = some f ∧ ∀ j, j < i → r.form.get? j ≠ some f) := by
  constructor
  · unfold latestMapping
    rw [List.mem_filterMap]
    constructor
    · rintro ⟨a, ha, hmap⟩
      rw [Option.map_eq_some'] at hmap
      obtain ⟨n, hn, heq⟩ := hmap
      rw [Prod.mk.injEq] at heq
      obtain ⟨rfl, rfl⟩ := heq
      exact ⟨ha, hn⟩
    · rintro ⟨hf, hocc⟩
      exact ⟨f, hf, by rw [hocc]; rfl⟩
  · exact firstOccIdx_spec r.form f i

/-- C6 witness: in the two-form history, the tracked form "10-K" is mapped to
index 1, its first (hence latest) occurrence. -/
theorem latestMapping_spec_witness :
    ("10-K", 1) ∈ latestMapping recentTwoForms ∧
    recentTwoForms.form.get? 1 = some "10-K" :=
  ⟨(latestMapping_spec recentTwoForms "10-K" 1).1.mpr ⟨by decide, by decide⟩,
   ((latestMapping_spec recentTwoForms "10-K" 1).2 (by decide)).1⟩

/-- C6 counterexample: with "8-K" and "10-K" on file and only "10-K"
requested, the selector also selects the 8-K (index 0) and the pipeline
downloads the 8-K document too — contradicting "inspects only the requested
form ... without fetching filings for any other tracked form type". -/
theorem selector_selects_all_tracked_forms :
    latestMapping recentTwoForms = [("10-K", 1), ("8-K", 0)] ∧
    (serverCompanyFilings envHappy2 "MSFT" "10-K" 0 okUA).2 =
      [.catalogGet, .subsGet, .docGet "000095017024000001" "msft-10k.htm",
       .docGet "000095017024000002" "msft-8k.htm"] :=
  ⟨rfl, rfl⟩

/-!  ## Claim C8  -/

/-- C8 (amended claim): on any caught network or parse failure the
filing-index fetcher does return three empty structures instead of
propagating — but the orchestrator does not treat them as "no filings
available": `get_latest_filings_index` indexes `filings['recent']` on the
empty dict and raises `KeyError` (see the counterexample for the end-to-end
crash). -/
theorem fetcher_empty_triples_then_keyerror :
    fetch_selected_company_details_and_filing_accessions .httpErr =
      some ([], [], ⟨none⟩) ∧
    fetch_selected_company_details_and_filing_accessions .reqErr =
      some ([], [], ⟨none⟩) ∧
    fetch_selected_company_details_and_filing_accessions .parseErr =
      some ([], [], ⟨none⟩) ∧
    get_latest_filings_index ⟨none⟩ = .error .keyError :=
  ⟨rfl, rfl, rfl, rfl⟩

/-- C8 counterexample: when the submissions endpoint fails for a resolved
ticker, the orchestrator crashes with the `KeyError` raised by
`get_latest_filings_index` on the empty filings dict — exactly the crash the
claim rules out — rather than producing a not-found outcome. -/
theorem orchestrator_keyerror_on_empty_structures :
    googleCompanyFilings envSubsErr "MSFT" "10-K" 0 okUA =
      (.pyCrash .keyError, [.catalogGet, .subsGet]) :=
  rfl

/-!  ## Claim C9  -/

/-- C9 (amended claim): google_oauth2_server.py's `company_filings` returns
the structured 404 "No filing found for form ..." payload when the form
selection comes up empty — reachable whenever the resolved company's history
contains no tracked form at all (with tracked forms present the pipeline
crashes earlier on the tuple-valued cik).  server.py's `company_filings`
instead raises `IndexError` on the empty selection (see the counterexample). -/
theorem google_form_not_found_404 (env : Env) (t form : String) (cursor : Int)
    (ua : String) (c tk ti : String) (j : SubsJson) (fd : FilingsDict)
    (r : RecentArrays)
    (hua : containsChar (pyStrip ua) '@' = true)
    (hcik : company_cik_by_ticker env.catalog t (pyStrip ua) = .ok (.tup c tk ti))
    (hsubs : env.subs (.tup c tk ti) = .okBody j)
    (hfal : subsFalsy j = false)
    (hfd : j.filings = some fd)
    (hr : fd.recent = some r)
    (hmap : latestMapping r = []) :
    googleCompanyFilings env t form cursor ua =
      (.errTuple (noFilingMsg form t) 404, [.catalogGet, .subsGet]) := by
  unfold googleCompanyFilings
  rw [hua]
  simp only [Bool.not_true, Bool.false_eq_true, if_false]
  rw [hcik]
  simp only [fetch_selected_company_details_and_filing_accessions, hsubs, hfal,
    Bool.false_eq_true, if_false, hfd, Option.getD_some]
  simp only [get_latest_filings_index, hr, hmap]
  simp only [create_base_df_for_sec_company_data, fetch_all_filings,
    List.zip_nil_left, List.filter_nil, List.append_nil]

/-- C9 witness: requesting "13G" against a history holding only an untracked
form yields the structured 404 payload after the catalog and submissions
requests. -/
theorem google_form_not_found_404_witness :
    googleCompanyFilings envNoTracked "MSFT" "13G" 0 okUA =
      (.errTuple (noFilingMsg "13G" "MSFT") 404, [.catalogGet, .subsGet]) :=
  google_form_not_found_404 envNoTracked "MSFT" "13G" 0 okUA
    "0000789019" "MSFT" "MICROSOFT CORP" (subsBodyWith recentNoTracked)
    ⟨some recentNoTracked⟩ recentNoTracked rfl rfl rfl rfl rfl rfl rfl

/-- C9 counterexample: requesting "13G" against a history that has a 10-K but
no 13G makes server.py's `company_filings` raise `IndexError`
(`selected_form.iloc[0]` on an empty frame) instead of returning a structured
404 error. -/
theorem server_form_not_found_index_error :
    (serverCompanyFilings envHappy1 "MSFT" "13G" 0 okUA).1 =
      .pyCrash .indexError :=
  rfl

/-!  ## Claim C10  -/

/-- C10 (confirmed): a 2xx submissions response whose JSON body parses to the
empty (falsy) object makes
`fetch_selected_company_details_and_filing_accessions` fall through and return
`None` instead of a 3-tuple, and the orchestrator's three-way unpacking of
that `None` then raises `TypeError`. -/
theorem empty_submissions_body_returns_none :
    fetch_selected_company_details_and_filing_accessions (.okBody ⟨[], none⟩) =
      none ∧
    googleCompanyFilings envEmptyBody "MSFT" "10-K" 0 okUA =
      (.pyCrash .typeError, [.catalogGet, .subsGet]) :=
  ⟨rfl, rfl⟩

end SecEdgar
